import Mathlib

/-!
Verification of the `tokenring-ai/docker` adapter package.

The package builds `docker` command lines by string concatenation (or an
argv list in one tool), shells out through `execa`, and normalizes the
subprocess result.  We embed the command construction and result
normalization as pure Lean functions, faithful to the TypeScript source:

* JavaScript string builtins (`trim`, `split("\n")`, truthiness) are
  modelled by executable helpers over `String.data`;
* the external `shellEscape` helper (from `@tokenring-ai/utility`, not part
  of this repository) is a parameter `esc : String → String` of every
  command builder, exactly as the source applies it;
* the external `execa` process invoker is modelled by the outcome it
  reports (`ExecaOutcome`): either a completed process with optional
  stdout/stderr/exitCode, or a thrown error with a message.
-/

/-- JavaScript `String.prototype.trim`: strip whitespace at both ends. -/
def jsTrim (s : String) : String :=
  ⟨((s.data.dropWhile Char.isWhitespace).reverse.dropWhile Char.isWhitespace).reverse⟩

/-- Split a character list at every occurrence of `c`, keeping empty pieces
(JavaScript `split` semantics: `"".split` gives one empty piece). -/
def splitOnChar (c : Char) : List Char → List (List Char)
  | [] => [[]]
  | x :: xs =>
    if x = c then [] :: splitOnChar c xs
    else
      match splitOnChar c xs with
      | [] => [[x]]
      | y :: ys => (x :: y) :: ys

/-- JavaScript `s.split("\n")`. -/
def jsSplitNewline (s : String) : List String :=
  (splitOnChar '\n' s.data).map (fun l => ⟨l⟩)

/-- Split on single spaces (used to tokenize a finished command string). -/
def splitWords (s : String) : List String :=
  (splitOnChar ' ' s.data).map (fun l => ⟨l⟩)

/-- `pre.data` is a prefix of `s.data` (JavaScript `s.startsWith(pre)`). -/
def strStartsWith (pre s : String) : Bool :=
  pre.data.isPrefixOf s.data

/-- JavaScript truthiness of a string: `""` is falsy, all else truthy. -/
def jsStrTruthy (s : String) : Bool := !(s == "")

/-- JavaScript `x || d` for a possibly-undefined string `x`. -/
def jsOrString (x : Option String) (d : String) : String :=
  match x with
  | none => d
  | some s => if s == "" then d else s

/-- JavaScript `x || d` for a possibly-undefined number `x`. -/
def jsOrInt (x : Option Int) (d : Int) : Int :=
  match x with
  | none => d
  | some n => if n == 0 then d else n

/-- JavaScript `Array.prototype.join(" ")`. -/
def joinSpace : List String → String
  | [] => ""
  | [s] => s
  | s :: rest => s ++ " " ++ joinSpace rest

/-- The default daemon address (`src/DockerSandboxProvider.ts` line 27). -/
def defaultDockerHost : String := "unix:///var/run/docker.sock"

/-- TLS material bundle (`src/DockerSandboxProvider.ts` lines 15-19). -/
structure TLSConfig where
  tlsCACert : Option String
  tlsCert : Option String
  tlsKey : Option String
deriving DecidableEq

/-- State of a `DockerSandboxProvider` (first variant, lines 22-42):
`host` plus `tlsConfig`, the latter set only when `tlsVerify` was true. -/
structure DockerSandboxProvider where
  host : String
  tlsConfig : Option TLSConfig
deriving DecidableEq

/-- The constructor of `DockerSandboxProvider` (lines 26-42): `host`
defaults to the local socket, and the TLS bundle is stored only when
`tlsVerify` (default `false`) is true. -/
def mkDockerSandboxProvider (host : Option String) (tlsVerify : Option Bool)
    (tlsCACert tlsCert tlsKey : Option String) : DockerSandboxProvider :=
  { host := host.getD defaultDockerHost
    tlsConfig :=
      if tlsVerify.getD false then some ⟨tlsCACert, tlsCert, tlsKey⟩ else none }

/-- `DockerSandboxProvider.buildDockerCmd` (lines 92-109): `docker`, then
`-H <host>` unless the host is the default socket, then — when a TLS bundle
is present — `--tls` and one `--tlscacert=`/`--tlscert=`/`--tlskey=` flag
per truthy path. -/
def buildDockerCmd (p : DockerSandboxProvider) (esc : String → String) : String :=
  let d := "docker"
  let d := if p.host ≠ defaultDockerHost then d ++ " -H " ++ esc p.host else d
  match p.tlsConfig with
  | none => d
  | some t =>
    let d := d ++ " --tls"
    let d := match t.tlsCACert with
      | some ca => if jsStrTruthy ca then d ++ " --tlscacert=" ++ esc ca else d
      | none => d
    let d := match t.tlsCert with
      | some c => if jsStrTruthy c then d ++ " --tlscert=" ++ esc c else d
      | none => d
    match t.tlsKey with
    | some k => if jsStrTruthy k then d ++ " --tlskey=" ++ esc k else d
    | none => d

/-- `SandboxOptions` as destructured in `createContainer` (line 45):
optional image, working directory, environment entries (in `Object.entries`
order), timeout in seconds. -/
structure SandboxOptions where
  image : Option String := none
  workingDir : Option String := none
  environment : Option (List (String × String)) := none
  timeout : Option Int := none

/-- The command string built by `DockerSandboxProvider.createContainer`
(lines 44-57): `<dockerCmd> run -d [-w <dir>] [-e k=v ...] <image> sleep
infinity`, with image defaulting to `ubuntu:latest`. -/
def createContainerCmd (p : DockerSandboxProvider) (esc : String → String)
    (opts : SandboxOptions) : String :=
  let image := opts.image.getD "ubuntu:latest"
  let cmd := buildDockerCmd p esc ++ " run -d"
  let cmd := match opts.workingDir with
    | some wd => if jsStrTruthy wd then cmd ++ " -w " ++ esc wd else cmd
    | none => cmd
  let cmd := match opts.environment with
    | some env =>
        env.foldl (fun c kv => c ++ " -e " ++ esc (kv.1 ++ "=" ++ kv.2)) cmd
    | none => cmd
  cmd ++ " " ++ esc image ++ " sleep infinity"

/-- The timeout value (milliseconds) `createContainer` hands to `execa`
(line 59): `timeout * 1000` with the seconds value defaulting to 30 and
otherwise passed through unmodified. -/
def createContainerTimeoutMs (opts : SandboxOptions) : Int :=
  (opts.timeout.getD 30) * 1000

/-- The result record of a sandbox create (line 62). -/
structure SandboxResult where
  containerId : String
  status : String
deriving DecidableEq

/-- `createContainer` result from the subprocess stdout (lines 60-62):
trimmed stdout as the handle, status `"running"`. -/
def createContainerResult (stdout : String) : SandboxResult :=
  { containerId := jsTrim stdout, status := "running" }

/-- Second variant of the provider (lines 116-165) delegates the prefix to
`DockerService.buildDockerCmd`; the `DockerService` configuration
(src/unnamed/part_004, `DockerConfigSchema`): optional host, optional TLS
options with a `verify` flag. -/
structure DockerTLSOptions where
  verify : Bool
  caCert : Option String
  cert : Option String
  key : Option String
deriving DecidableEq

structure DockerServiceOptions where
  host : Option String
  tls : Option DockerTLSOptions
deriving DecidableEq

/-- `DockerService.buildDockerCmd` (src/unnamed/part_004 lines 11-28):
adds `-H <host>` whenever a truthy host is configured (no comparison with
the default socket), then the TLS flags when `tls?.verify` is truthy. -/
def dockerServiceBuildDockerCmd (o : DockerServiceOptions) (esc : String → String) : String :=
  let d := "docker"
  let d := match o.host with
    | some h => if jsStrTruthy h then d ++ " -H " ++ esc h else d
    | none => d
  match o.tls with
  | none => d
  | some t =>
    if t.verify then
      let d := d ++ " --tls"
      let d := match t.caCert with
        | some ca => if jsStrTruthy ca then d ++ " --tlscacert=" ++ esc ca else d
        | none => d
      let d := match t.cert with
        | some c => if jsStrTruthy c then d ++ " --tlscert=" ++ esc c else d
        | none => d
      match t.key with
      | some k => if jsStrTruthy k then d ++ " --tlskey=" ++ esc k else d
      | none => d
    else d

/-- The command string built by the second `createContainer` variant
(lines 119-132), identical except for the prefix source. -/
def createContainerCmd2 (o : DockerServiceOptions) (esc : String → String)
    (opts : SandboxOptions) : String :=
  let image := opts.image.getD "ubuntu:latest"
  let cmd := dockerServiceBuildDockerCmd o esc ++ " run -d"
  let cmd := match opts.workingDir with
    | some wd => if jsStrTruthy wd then cmd ++ " -w " ++ esc wd else cmd
    | none => cmd
  let cmd := match opts.environment with
    | some env =>
        env.foldl (fun c kv => c ++ " -e " ++ esc (kv.1 ++ "=" ++ kv.2)) cmd
    | none => cmd
  cmd ++ " " ++ esc image ++ " sleep infinity"

/-- The command string built by `DockerSandboxProvider.executeCommand`
(line 66): `<dockerCmd> exec <container> sh -c <command>`. -/
def executeCommandCmd (p : DockerSandboxProvider) (esc : String → String)
    (containerId command : String) : String :=
  buildDockerCmd p esc ++ " exec " ++ esc containerId ++ " sh -c " ++ esc command

/-- What the `execa` invocation reports back: a completed process (with
possibly-undefined stdout, stderr, exit code — `reject: false` reports
non-zero exits this way), or a thrown error carrying a message. -/
inductive ExecaOutcome where
  | completed (stdout stderr : Option String) (exitCode : Option Int)
  | threw (message : String)

/-- The `ExecuteResult` record returned by `executeCommand`. -/
structure ExecuteResult where
  stdout : String
  stderr : String
  exitCode : Int
deriving DecidableEq

/-- Result normalization of `executeCommand` (lines 68-73): on the
non-throwing path `{stdout: stdout || "", stderr: stderr || "", exitCode:
exitCode || 0}`; on a caught exception `{stdout: "", stderr: err.message,
exitCode: 1}`. -/
def executeCommandResult : ExecaOutcome → ExecuteResult
  | .completed so se ec =>
      { stdout := jsOrString so "", stderr := jsOrString se "", exitCode := jsOrInt ec 0 }
  | .threw m => { stdout := "", stderr := m, exitCode := 1 }

/-! ### Claim-side rendering of the create invocation (spec §6)

`specRunInvocation` is written from the claim's words — the shape
`run -d [-w <dir>] [-e KEY=VALUE ...] <image> <idle-forever command>` —
to be compared against the source-side builders. -/

/-- One ` -e KEY=VALUE` pair per environment entry, in order. -/
def specEnvFlags (esc : String → String) : List (String × String) → String
  | [] => ""
  | kv :: rest => " -e " ++ esc (kv.1 ++ "=" ++ kv.2) ++ specEnvFlags esc rest

/-- The claim's invocation shape: the connection-command prefix, `run -d`,
the optional `-w` flag, one `-e` pair per environment entry, the image,
and the idle-forever command `sleep infinity`. -/
def specRunInvocation (prefixCmd : String) (esc : String → String)
    (opts : SandboxOptions) : String :=
  prefixCmd ++ " run -d"
    ++ (match opts.workingDir with
        | some wd => if jsStrTruthy wd then " -w " ++ esc wd else ""
        | none => "")
    ++ specEnvFlags esc (opts.environment.getD [])
    ++ " " ++ esc (opts.image.getD "ubuntu:latest") ++ " sleep infinity"

/-! ### Tool-side models

The ~18 CLI tools each inline the same connection-flag block using
`DockerService.getHost()` / `getTLSConfig()` (src/DockerService.ts), then
append operation flags.  `DockerServiceState` models that service's fields
and `toolDockerCmd` the repeated block (e.g. src/tools/listImages.ts lines
52-75, src/tools/listContainers.ts lines 57-80, src/tools/buildImage.ts,
src/tools/removeContainer.ts, src/tools/authenticateRegistry.ts). -/

structure DockerServiceState where
  host : String
  tlsVerify : Bool
  tlsCACert : Option String
  tlsCert : Option String
  tlsKey : Option String
deriving DecidableEq

/-- The `DockerService` constructor (src/DockerService.ts lines 28-41):
host defaults to the local socket, `tlsVerify` to `false`. -/
def mkDockerService (host : Option String) (tlsVerify : Option Bool)
    (tlsCACert tlsCert tlsKey : Option String) : DockerServiceState :=
  { host := host.getD defaultDockerHost
    tlsVerify := tlsVerify.getD false
    tlsCACert := tlsCACert
    tlsCert := tlsCert
    tlsKey := tlsKey }

/-- The connection-flag block each tool repeats: `docker`, `-H <host>` when
the host differs from the default socket, then — when `tlsVerify` — the
three TLS path flags, each only when truthy, each shell-escaped. -/
def toolDockerCmd (svc : DockerServiceState) (esc : String → String) : String :=
  let d := "docker"
  let d := if svc.host ≠ defaultDockerHost then d ++ " -H " ++ esc svc.host else d
  if svc.tlsVerify then
    let d := d ++ " --tls"
    let d := match svc.tlsCACert with
      | some ca => if jsStrTruthy ca then d ++ " --tlscacert=" ++ esc ca else d
      | none => d
    let d := match svc.tlsCert with
      | some c => if jsStrTruthy c then d ++ " --tlscert=" ++ esc c else d
      | none => d
    match svc.tlsKey with
    | some k => if jsStrTruthy k then d ++ " --tlskey=" ++ esc k else d
    | none => d
  else d

/-- `Math.max(5, Math.min(timeoutSeconds, 1800))` — the build-image clamp
(src/tools/buildImage.ts line 74). -/
def buildImageTimeout (t : Int) : Int := max 5 (min t 1800)

/-- `Math.max(5, Math.min(timeoutSeconds, 120))` — the clamp used by
listImages (line 78), listContainers (line 83), removeContainer,
stopContainer, authenticateRegistry. -/
def listImagesTimeout (t : Int) : Int := max 5 (min t 120)

/-- `Math.max(5, Math.min(timeoutSeconds || 60, 600))` — the dockerRun
clamp (src/tools/dockerRun.ts line 87). -/
def dockerRunTimeout (t : Int) : Int := max 5 (min (jsOrInt (some t) 60) 600)

/-- The command string built by the listImages tool
(src/tools/listImages.ts lines 78-109): the `timeout <n>s` wrapper, the
connection prefix, `images`, then the option flags and the format flag
(`--format '{{json .}}'` for json). -/
def listImagesCmd (svc : DockerServiceState) (esc : String → String)
    (all quiet digests : Bool) (filter : Option String) (format : String)
    (timeoutSeconds : Int) : String :=
  let timeout := listImagesTimeout timeoutSeconds
  let cmd := "timeout " ++ toString timeout ++ "s " ++ toolDockerCmd svc esc ++ " images"
  let cmd := if all then cmd ++ " -a" else cmd
  let cmd := if quiet then cmd ++ " -q" else cmd
  let cmd := if digests then cmd ++ " --digests" else cmd
  let cmd := match filter with
    | some f => if jsStrTruthy f then cmd ++ " --filter " ++ esc f else cmd
    | none => cmd
  if format == "json" then cmd ++ " --format \x27\x7b\x7bjson .\x7d\x7d\x27"
  else if format == "table" then cmd
  else cmd ++ " --format " ++ esc format

/-- The nonblank lines of trimmed stdout, as both list tools compute them:
`stdout.trim().split("\n").filter((line) => line.trim())` (listImages.ts
lines 126-129, listContainers.ts lines 136-139). -/
def jsonLines (stdout : String) : List String :=
  (jsSplitNewline (jsTrim stdout)).filter (fun l => jsStrTruthy (jsTrim l))

/-- `lines.map((line) => JSON.parse(line))` where a throwing `JSON.parse`
aborts the whole map: the first failing line's message wins, values parsed
so far are discarded.  The parser itself is the external `JSON.parse`,
passed in as `parse`. -/
def parseLines {α : Type} (parse : String → Except String α) :
    List String → Except String (List α)
  | [] => .ok []
  | l :: ls =>
    match parse l with
    | .ok j =>
      match parseLines parse ls with
      | .ok js => .ok (j :: js)
      | .error e => .error e
    | .error e => .error e

/-- The `images` / `containers` field of a list-tool result: either the
parsed objects or the raw trimmed stdout text. -/
inductive ImagesField (α : Type) where
  | parsed (js : List α)
  | raw (s : String)
deriving DecidableEq

/-- The success-path result portion of a JSON-format list tool: `ok` flag,
the images field, and the error line logged on a parse failure. -/
structure ListOpOutcome (α : Type) where
  ok : Bool
  images : ImagesField α
  errorLog : Option String
deriving DecidableEq

/-- listImages result assembly on the non-throwing subprocess path
(src/tools/listImages.ts lines 121-154): for json format without `quiet`,
parse every nonblank line; on any parse failure log
`[docker/listImages] Error parsing JSON output: <msg>` and substitute the
raw trimmed stdout; the overall result keeps `ok: true` either way. -/
def listImagesSuccessResult {α : Type} (parse : String → Except String α)
    (format : String) (quiet : Bool) (stdout : String) : ListOpOutcome α :=
  if format == "json" && !quiet then
    match parseLines parse (jsonLines stdout) with
    | .ok js => { ok := true, images := .parsed js, errorLog := none }
    | .error e =>
        { ok := true, images := .raw (jsTrim stdout)
          errorLog := some ("[docker/listImages] Error parsing JSON output: " ++ e) }
  else { ok := true, images := .raw (jsTrim stdout), errorLog := none }

/-- listContainers result assembly on the non-throwing subprocess path
(src/tools/listContainers.ts lines 131-164), identical shape with the
`[listContainers]` message prefix. -/
def listContainersSuccessResult {α : Type} (parse : String → Except String α)
    (format : String) (quiet : Bool) (stdout : String) : ListOpOutcome α :=
  if format == "json" && !quiet then
    match parseLines parse (jsonLines stdout) with
    | .ok js => { ok := true, images := .parsed js, errorLog := none }
    | .error e =>
        { ok := true, images := .raw (jsTrim stdout)
          errorLog := some ("[listContainers] Error parsing JSON output: " ++ e) }
  else { ok := true, images := .raw (jsTrim stdout), errorLog := none }

/-- The argv list built by the dockerRun tool (src/tools/dockerRun.ts
lines 37-85): `["run", "--rm"]` with `-H` and the TLS flags *unshifted*
onto the front one after the other (so they end up in reverse order and
unescaped), then `-e` pairs, `-w`, the optional bind mount (skipped when
the base directory is unavailable), image and `sh -c <cmd>`. -/
def dockerRunArgs (svc : DockerServiceState)
    (env : List (String × String)) (workdir : Option String)
    (mountBase : Option String) (mountSrc : Option String)
    (image cmdStr : String) : List String :=
  let args := ["run", "--rm"]
  let args := if svc.host ≠ defaultDockerHost then "-H" :: svc.host :: args else args
  let args :=
    if svc.tlsVerify then
      let args := "--tls" :: args
      let args := match svc.tlsCACert with
        | some ca => if jsStrTruthy ca then ("--tlscacert=" ++ ca) :: args else args
        | none => args
      let args := match svc.tlsCert with
        | some c => if jsStrTruthy c then ("--tlscert=" ++ c) :: args else args
        | none => args
      match svc.tlsKey with
      | some k => if jsStrTruthy k then ("--tlskey=" ++ k) :: args else args
      | none => args
    else args
  let args := args ++ env.flatMap (fun kv => ["-e", kv.1 ++ "=" ++ kv.2])
  let args := match workdir with
    | some w => if jsStrTruthy w then args ++ ["-w", w] else args
    | none => args
  let args := match mountSrc with
    | some m =>
      if jsStrTruthy m then
        match mountBase with
        | some b => args ++ ["-v", b ++ ":" ++ m]
        | none => args
      else args
    | none => args
  args ++ [image, "sh", "-c", cmdStr]

/-- The final dockerRun command (src/tools/dockerRun.ts line 90):
`["timeout", "<n>s", "docker", ...args]`. -/
def dockerRunFinalCommand (svc : DockerServiceState)
    (env : List (String × String)) (workdir : Option String)
    (mountBase : Option String) (mountSrc : Option String)
    (image cmdStr : String) (timeoutSeconds : Int) : List String :=
  "timeout" :: (toString (dockerRunTimeout timeoutSeconds) ++ "s") :: "docker"
    :: dockerRunArgs svc env workdir mountBase mountSrc image cmdStr

/-- The `containers` argument of removeContainer / stopContainer: a JS
union `string | string[]`, possibly absent. -/
inductive ContainersArg where
  | absent
  | single (s : String)
  | multi (l : List String)

/-- JS falsiness of the `containers` value: absent or the empty string
(an array, even empty, is truthy). -/
def jsContainersFalsy : ContainersArg → Bool
  | .absent => true
  | .single s => s == ""
  | .multi _ => false

/-- `Array.isArray(containers) ? containers : [containers]`. -/
def toContainerList : ContainersArg → List String
  | .absent => []
  | .single s => [s]
  | .multi l => l

/-- The removeContainer tool (src/tools/removeContainer.ts lines 27-90):
validates `containers` before anything is spawned, then builds
`timeout <n>s <dockerCmd> rm [-f] [-v] [-l] <containers...>`.  The model
returns `.error` for a validation failure thrown before any subprocess,
`.ok` with the command string that would be spawned otherwise. -/
def removeContainerExecute (svc : DockerServiceState) (esc : String → String)
    (containers : ContainersArg) (force volumes link : Bool)
    (timeoutSeconds : Int) : Except String String :=
  if jsContainersFalsy containers then
    .error "[docker/removeContainer] containers is required"
  else
    let containerList := toContainerList containers
    if containerList.length == 0 then
      .error "[docker/removeContainer] at least one container must be specified"
    else
      let timeout := listImagesTimeout timeoutSeconds
      let cmd := "timeout " ++ toString timeout ++ "s " ++ toolDockerCmd svc esc ++ " rm"
      let cmd := if force then cmd ++ " -f" else cmd
      let cmd := if volumes then cmd ++ " -v" else cmd
      let cmd := if link then cmd ++ " -l" else cmd
      .ok (cmd ++ " " ++ joinSpace (containerList.map esc))

/-- The stopContainer tool (src/tools/stopContainer.ts lines 22-52): same
validation, then `timeout <n>s <dockerCmd> stop [-t <time>]
<containers...>` with the prefix from `DockerService.buildDockerCmd`. -/
def stopContainerExecute (o : DockerServiceOptions) (esc : String → String)
    (containers : ContainersArg) (time : Int)
    (timeoutSeconds : Int) : Except String String :=
  if jsContainersFalsy containers then
    .error "[docker_stopContainer] containers is required"
  else
    let containerList := toContainerList containers
    if containerList.length == 0 then
      .error "[docker_stopContainer] at least one container must be specified"
    else
      let timeout := listImagesTimeout timeoutSeconds
      let cmd := "timeout " ++ toString timeout ++ "s " ++ dockerServiceBuildDockerCmd o esc ++ " stop"
      let cmd := if time != 10 then cmd ++ " -t " ++ esc (toString time) else cmd
      .ok (cmd ++ " " ++ joinSpace (containerList.map esc))

/-- The authenticateRegistry tool's message and command construction
(src/tools/authenticateRegistry.ts lines 63-116): the executed command is
`timeout <n>s <dockerCmd> login <server> -u <user> [-p <password>]
[--email <email>]` (`-p` only when the password is not passed via stdin),
while the line logged to the agent is
`[docker/authenticateRegistry] Executing: <dockerCmd> login <server> -u
<user> [password hidden]`.  Returns `(logged line, executed command)`. -/
def authInvocation (svc : DockerServiceState) (esc : String → String)
    (server username password : String) (email : Option String)
    (passwordStdin : Bool) (timeoutSeconds : Int) : String × String :=
  let dockerCmd := toolDockerCmd svc esc
  let timeout := listImagesTimeout timeoutSeconds
  let cmd := "timeout " ++ toString timeout ++ "s " ++ dockerCmd ++ " login"
  let cmd := cmd ++ " " ++ esc server
  let cmd := cmd ++ " -u " ++ esc username
  let cmd := if !passwordStdin then cmd ++ " -p " ++ esc password else cmd
  let cmd := match email with
    | some e => if jsStrTruthy e then cmd ++ " --email " ++ esc e else cmd
    | none => cmd
  let logLine := "[docker/authenticateRegistry] Executing: " ++ dockerCmd
    ++ " login " ++ server ++ " -u " ++ username ++ " [password hidden]"
  (logLine, cmd)

/-! ### Claim-side decomposition of the connection prefix (spec §6, §8)

The spec describes every generated command line as `docker`, an optional
`-H` part, then an optional TLS part `--tls --tlscacert=<ca> --tlscert=<c>
--tlskey=<k>` in that order.  The following parts render that wording; the
shape lemmas below prove each string builder equal to this decomposition. -/

def hostPart (host : String) (esc : String → String) : String :=
  if host ≠ defaultDockerHost then " -H " ++ esc host else ""

def optFlagPart (flag : String) (esc : String → String) : Option String → String
  | some v => if jsStrTruthy v then flag ++ esc v else ""
  | none => ""

def tlsPart (esc : String → String) : Option TLSConfig → String
  | none => ""
  | some t =>
    " --tls" ++ optFlagPart " --tlscacert=" esc t.tlsCACert
      ++ optFlagPart " --tlscert=" esc t.tlsCert
      ++ optFlagPart " --tlskey=" esc t.tlsKey

def svcTlsPart (esc : String → String) (svc : DockerServiceState) : String :=
  if svc.tlsVerify then
    " --tls" ++ optFlagPart " --tlscacert=" esc svc.tlsCACert
      ++ optFlagPart " --tlscert=" esc svc.tlsCert
      ++ optFlagPart " --tlskey=" esc svc.tlsKey
  else ""

def dsHostPart (esc : String → String) : Option String → String
  | some h => if jsStrTruthy h then " -H " ++ esc h else ""
  | none => ""

def dsTlsPart (esc : String → String) : Option DockerTLSOptions → String
  | none => ""
  | some t =>
    if t.verify then
      " --tls" ++ optFlagPart " --tlscacert=" esc t.caCert
        ++ optFlagPart " --tlscert=" esc t.cert
        ++ optFlagPart " --tlskey=" esc t.key
    else ""

/-- The claim's "exactly one `--tls`, one `--tlscacert=`, one `--tlscert=`,
one `--tlskey=`, in that order" over a token list. -/
def tlsFlagsOnceInOrder (args : List String) : Bool :=
  (args.countP (fun s => s == "--tls") == 1) &&
  (args.countP (fun s => strStartsWith "--tlscacert=" s) == 1) &&
  (args.countP (fun s => strStartsWith "--tlscert=" s) == 1) &&
  (args.countP (fun s => strStartsWith "--tlskey=" s) == 1) &&
  decide (args.findIdx (fun s => s == "--tls")
    < args.findIdx (fun s => strStartsWith "--tlscacert=" s)) &&
  decide (args.findIdx (fun s => strStartsWith "--tlscacert=" s)
    < args.findIdx (fun s => strStartsWith "--tlscert=" s)) &&
  decide (args.findIdx (fun s => strStartsWith "--tlscert=" s)
    < args.findIdx (fun s => strStartsWith "--tlskey=" s))

/-- A concrete `DockerService` state with TLS verification on and all
three certificate paths present. -/
def tlsToolSvc : DockerServiceState :=
  { host := defaultDockerHost, tlsVerify := true
    tlsCACert := some "/ca.pem", tlsCert := some "/cert.pem", tlsKey := some "/key.pem" }

/-- `DockerSandboxProvider.stopContainer` command (line 77). -/
def providerStopCmd (p : DockerSandboxProvider) (esc : String → String)
    (containerId : String) : String :=
  buildDockerCmd p esc ++ " stop " ++ esc containerId

/-- `DockerSandboxProvider.getLogs` command (line 82). -/
def providerGetLogsCmd (p : DockerSandboxProvider) (esc : String → String)
    (containerId : String) : String :=
  buildDockerCmd p esc ++ " logs " ++ esc containerId

/-- `DockerSandboxProvider.removeContainer` command (line 88). -/
def providerRemoveCmd (p : DockerSandboxProvider) (esc : String → String)
    (containerId : String) : String :=
  buildDockerCmd p esc ++ " rm -f " ++ esc containerId

/-- A concrete model of `JSON.parse` restricted to the one value needed by
the witnesses: `"{}"` parses, everything else throws `"bad json"`. -/
def parse0 : String → Except String Unit :=
  fun l => if l == "{}" then .ok () else .error "bad json"

/-- One `<flag><escaped k=v>` piece per entry, in order — the shape of the
`--build-arg` and `-o` option loops. -/
def pairFlags (flag : String) (esc : String → String) : List (String × String) → String
  | [] => ""
  | kv :: rest => flag ++ esc (kv.1 ++ "=" ++ kv.2) ++ pairFlags flag esc rest

/-- The `if (flag) cmd += suffix;` statement shape every tool repeats. -/
def appendIf (b : Bool) (suffix cmd : String) : String :=
  if b then cmd ++ suffix else cmd

/-- The `if (optionalString) cmd += <piece built from it>;` statement shape
(JS truthiness: present and nonempty). -/
def appendOpt (v : Option String) (f : String → String) (cmd : String) : String :=
  match v with
  | some x => if jsStrTruthy x then cmd ++ f x else cmd
  | none => cmd

/-- The `if (optionalNumber) cmd += <piece built from it>;` statement shape
(JS truthiness: present and nonzero). -/
def appendOptInt (v : Option Int) (f : Int → String) (cmd : String) : String :=
  match v with
  | some n => if n != 0 then cmd ++ f n else cmd
  | none => cmd

/-- `Math.max(5, Math.min(timeoutSeconds, 300))` — getContainerLogs.ts. -/
def getContainerLogsTimeout (t : Int) : Int := max 5 (min t 300)

/-- `Math.max(5, Math.min(timeoutSeconds, 300))` — pruneImages.ts. -/
def pruneImagesTimeout (t : Int) : Int := max 5 (min t 300)

/-- `Math.max(5, Math.min(timeoutSeconds, 600))` — dockerStack.ts. -/
def dockerStackTimeout (t : Int) : Int := max 5 (min t 600)

/-- `Math.max(5, Math.min(timeoutSeconds, 1800))` — pushImage.ts. -/
def pushImageTimeout (t : Int) : Int := max 5 (min t 1800)

/-- The command string built by the listContainers tool
(src/tools/listContainers.ts lines 83-119): `timeout <n>s <dockerCmd> ps`
plus the option flags; `-n` only for a truthy (nonzero) limit. -/
def listContainersCmd (svc : DockerServiceState) (esc : String → String)
    (all quiet : Bool) (limit : Option Int) (filter : Option String)
    (size : Bool) (format : String) (timeoutSeconds : Int) : String :=
  let timeout := listImagesTimeout timeoutSeconds
  let cmd := "timeout " ++ toString timeout ++ "s " ++ toolDockerCmd svc esc ++ " ps"
  let cmd := appendIf all " -a" cmd
  let cmd := appendIf quiet " -q" cmd
  let cmd := appendOptInt limit (fun n => " -n " ++ esc (toString n)) cmd
  let cmd := appendOpt filter (fun f => " --filter " ++ esc f) cmd
  let cmd := appendIf size " -s" cmd
  if format == "json" then cmd ++ " --format \x27\x7b\x7bjson .\x7d\x7d\x27"
  else if format == "table" then cmd
  else cmd ++ " --format " ++ esc format

/-- The command string built by the buildImage tool
(src/tools/buildImage.ts lines 74-101): `timeout <n>s <dockerCmd> build -t
<tag> [-f <dockerfile>] [--build-arg k=v ...] [--no-cache] [--pull]
<context>`. -/
def buildImageCmd (svc : DockerServiceState) (esc : String → String)
    (tag : String) (dockerfile : Option String)
    (buildArgs : List (String × String)) (noCache pull : Bool)
    (context : String) (timeoutSeconds : Int) : String :=
  let timeout := buildImageTimeout timeoutSeconds
  let cmd := "timeout " ++ toString timeout ++ "s " ++ toolDockerCmd svc esc ++ " build"
  let cmd := cmd ++ " -t " ++ esc tag
  let cmd := appendOpt dockerfile (fun df => " -f " ++ esc df) cmd
  let cmd := buildArgs.foldl (fun c kv => c ++ " --build-arg " ++ esc (kv.1 ++ "=" ++ kv.2)) cmd
  let cmd := appendIf noCache " --no-cache" cmd
  let cmd := appendIf pull " --pull" cmd
  cmd ++ " " ++ esc context

/-- The command string built by the createNetwork tool
(src/tools/createNetwork.ts lines 86-120): `timeout <n>s <dockerCmd>
network create` plus driver, `-o` options, internal/subnet/gateway/ip-range
flags and the network name. -/
def createNetworkCmd (svc : DockerServiceState) (esc : String → String)
    (networkName driver : String) (options : List (String × String))
    (internal : Bool) (subnet gateway ipRange : Option String)
    (timeoutSeconds : Int) : String :=
  let timeout := listImagesTimeout timeoutSeconds
  let cmd := "timeout " ++ toString timeout ++ "s " ++ toolDockerCmd svc esc ++ " network create"
  let cmd := appendIf (driver != "bridge") (" -d " ++ esc driver) cmd
  let cmd := options.foldl (fun c kv => c ++ " -o " ++ esc (kv.1 ++ "=" ++ kv.2)) cmd
  let cmd := appendIf internal " --internal" cmd
  let cmd := appendOpt subnet (fun s => " --subnet=" ++ esc s) cmd
  let cmd := appendOpt gateway (fun g => " --gateway=" ++ esc g) cmd
  let cmd := appendOpt ipRange (fun r => " --ip-range=" ++ esc r) cmd
  cmd ++ " " ++ esc networkName

/-- The command string built by the getContainerLogs tool
(src/tools/getContainerLogs.ts lines 78-103): `timeout <n>s <dockerCmd>
logs` plus follow/timestamps/since/until/tail/details flags and the
container name. -/
def getContainerLogsCmd (svc : DockerServiceState) (esc : String → String)
    (follow timestamps : Bool) (since untl : Option String) (tail : Int)
    (details : Bool) (containerName : String) (timeoutSeconds : Int) : String :=
  let timeout := getContainerLogsTimeout timeoutSeconds
  let cmd := "timeout " ++ toString timeout ++ "s " ++ toolDockerCmd svc esc ++ " logs"
  let cmd := appendIf follow " --follow" cmd
  let cmd := appendIf timestamps " --timestamps" cmd
  let cmd := appendOpt since (fun s => " --since " ++ esc s) cmd
  let cmd := appendOpt untl (fun u => " --until " ++ esc u) cmd
  let cmd := cmd ++ " --tail " ++ esc (toString tail)
  let cmd := appendIf details " --details" cmd
  cmd ++ " " ++ esc containerName

/-- The command string built by the pruneImages tool
(src/tools/pruneImages.ts lines 60-71): `timeout <n>s <dockerCmd> image
prune -f [-a] [--filter <f>]`. -/
def pruneImagesCmd (svc : DockerServiceState) (esc : String → String)
    (all : Bool) (filter : Option String) (timeoutSeconds : Int) : String :=
  let timeout := pruneImagesTimeout timeoutSeconds
  let cmd := "timeout " ++ toString timeout ++ "s " ++ toolDockerCmd svc esc ++ " image prune -f"
  let cmd := appendIf all " -a" cmd
  appendOpt filter (fun f => " --filter " ++ esc f) cmd

/-- The command string built by the pushImage tool
(src/tools/pushImage.ts lines 63-73): `timeout <n>s <dockerCmd> push
[--all-tags] <tag>`. -/
def pushImageCmd (svc : DockerServiceState) (esc : String → String)
    (allTags : Bool) (tag : String) (timeoutSeconds : Int) : String :=
  let timeout := pushImageTimeout timeoutSeconds
  let cmd := "timeout " ++ toString timeout ++ "s " ++ toolDockerCmd svc esc ++ " push"
  let cmd := appendIf allTags " --all-tags" cmd
  cmd ++ " " ++ esc tag

/-- The command string built by the removeImage tool
(src/tools/removeImage.ts lines 83-97): `timeout <n>s <dockerCmd> rmi [-f]
[--no-prune] <images...>`. -/
def removeImageCmd (svc : DockerServiceState) (esc : String → String)
    (force noPrune : Bool) (images : List String) (timeoutSeconds : Int) : String :=
  let timeout := listImagesTimeout timeoutSeconds
  let cmd := "timeout " ++ toString timeout ++ "s " ++ toolDockerCmd svc esc ++ " rmi"
  let cmd := appendIf force " -f" cmd
  let cmd := appendIf noPrune " --no-prune" cmd
  cmd ++ " " ++ joinSpace (images.map esc)

/-- The command string built by the startContainer tool
(src/tools/startContainer.ts lines 70-84): `timeout <n>s <dockerCmd> start
[-a] [-i] <containers...>`. -/
def startContainerCmd (svc : DockerServiceState) (esc : String → String)
    (attach interactive : Bool) (containers : List String)
    (timeoutSeconds : Int) : String :=
  let timeout := listImagesTimeout timeoutSeconds
  let cmd := "timeout " ++ toString timeout ++ "s " ++ toolDockerCmd svc esc ++ " start"
  let cmd := appendIf attach " -a" cmd
  let cmd := appendIf interactive " -i" cmd
  cmd ++ " " ++ joinSpace (containers.map esc)

/-- The command string built by the tagImage tool
(src/tools/tagImage.ts lines 40-68): `timeout <n>s <dockerCmd> tag
<sourceImage> <targetImage>`. -/
def tagImageCmd (svc : DockerServiceState) (esc : String → String)
    (sourceImage targetImage : String) (timeoutSeconds : Int) : String :=
  "timeout " ++ toString (listImagesTimeout timeoutSeconds) ++ "s "
    ++ toolDockerCmd svc esc ++ " tag " ++ esc sourceImage ++ " " ++ esc targetImage

/-- The dockerStack deploy command (src/tools/dockerStack.ts line 73). -/
def dockerStackDeployCmd (svc : DockerServiceState) (esc : String → String)
    (composeFile stackName : String) (timeoutSeconds : Int) : String :=
  "timeout " ++ toString (dockerStackTimeout timeoutSeconds) ++ "s "
    ++ toolDockerCmd svc esc ++ " stack deploy -c " ++ esc composeFile ++ " " ++ esc stackName

/-- The dockerStack remove command (src/tools/dockerStack.ts line 76). -/
def dockerStackRemoveCmd (svc : DockerServiceState) (esc : String → String)
    (stackName : String) (timeoutSeconds : Int) : String :=
  "timeout " ++ toString (dockerStackTimeout timeoutSeconds) ++ "s "
    ++ toolDockerCmd svc esc ++ " stack rm " ++ esc stackName

/-- The dockerStack ps command (src/tools/dockerStack.ts line 79). -/
def dockerStackPsCmd (svc : DockerServiceState) (esc : String → String)
    (stackName : String) (timeoutSeconds : Int) : String :=
  "timeout " ++ toString (dockerStackTimeout timeoutSeconds) ++ "s "
    ++ toolDockerCmd svc esc ++ " stack ps " ++ esc stackName


theorem foldl_env_eq_specEnvFlags (esc : String → String) :
    ∀ (l : List (String × String)) (init : String),
      l.foldl (fun c kv => c ++ " -e " ++ esc (kv.1 ++ "=" ++ kv.2)) init
        = init ++ specEnvFlags esc l := by
  intro l
  induction l with
  | nil => intro init; simp [specEnvFlags]
  | cons kv rest ih =>
      intro init
      rw [List.foldl_cons, ih, specEnvFlags]
      simp only [String.append_assoc]

theorem createContainerCmd_eq_spec (p : DockerSandboxProvider)
    (esc : String → String) (opts : SandboxOptions) :
    createContainerCmd p esc opts = specRunInvocation (buildDockerCmd p esc) esc opts := by
  obtain ⟨img, wd, env, t⟩ := opts
  simp only [createContainerCmd, specRunInvocation]
  generalize buildDockerCmd p esc = b
  cases wd with
  | none =>
    cases env with
    | none =>
      dsimp only [Option.getD, specEnvFlags]
      simp only [String.append_assoc, String.append_empty]
    | some l =>
      dsimp only [Option.getD]
      rw [foldl_env_eq_specEnvFlags]
      simp only [String.append_assoc, String.append_empty]
  | some w =>
    cases env with
    | none =>
      dsimp only [Option.getD, specEnvFlags]
      by_cases h : jsStrTruthy w = true
      · rw [if_pos h, if_pos h]
        simp only [String.append_assoc, String.append_empty]
      · rw [if_neg h, if_neg h]
        simp only [String.append_assoc, String.append_empty]
    | some l =>
      dsimp only [Option.getD]
      by_cases h : jsStrTruthy w = true
      · rw [if_pos h, if_pos h, foldl_env_eq_specEnvFlags]
        simp only [String.append_assoc, String.append_empty]
      · rw [if_neg h, if_neg h, foldl_env_eq_specEnvFlags]
        simp only [String.append_assoc, String.append_empty]

theorem createContainerCmd2_eq_spec (o : DockerServiceOptions)
    (esc : String → String) (opts : SandboxOptions) :
    createContainerCmd2 o esc opts
      = specRunInvocation (dockerServiceBuildDockerCmd o esc) esc opts := by
  obtain ⟨img, wd, env, t⟩ := opts
  simp only [createContainerCmd2, specRunInvocation]
  generalize dockerServiceBuildDockerCmd o esc = b
  cases wd with
  | none =>
    cases env with
    | none =>
      dsimp only [Option.getD, specEnvFlags]
      simp only [String.append_assoc, String.append_empty]
    | some l =>
      dsimp only [Option.getD]
      rw [foldl_env_eq_specEnvFlags]
      simp only [String.append_assoc, String.append_empty]
  | some w =>
    cases env with
    | none =>
      dsimp only [Option.getD, specEnvFlags]
      by_cases h : jsStrTruthy w = true
      · rw [if_pos h, if_pos h]
        simp only [String.append_assoc, String.append_empty]
      · rw [if_neg h, if_neg h]
        simp only [String.append_assoc, String.append_empty]
    | some l =>
      dsimp only [Option.getD]
      by_cases h : jsStrTruthy w = true
      · rw [if_pos h, if_pos h, foldl_env_eq_specEnvFlags]
        simp only [String.append_assoc, String.append_empty]
      · rw [if_neg h, if_neg h, foldl_env_eq_specEnvFlags]
        simp only [String.append_assoc, String.append_empty]

/-- **C1.** For every provider configuration, escape function, options and
subprocess stdout: both `createContainer` variants build exactly the
claimed invocation shape `run -d [-w <dir>] [-e KEY=VALUE ...] <image>
sleep infinity` after the connection prefix, and on success the result is
the trimmed stdout as container handle with status `"running"`. -/
theorem createContainer_builds_run_shape
    (p : DockerSandboxProvider) (o : DockerServiceOptions)
    (esc : String → String) (opts : SandboxOptions) (stdout : String) :
    createContainerCmd p esc opts = specRunInvocation (buildDockerCmd p esc) esc opts
    ∧ createContainerCmd2 o esc opts
        = specRunInvocation (dockerServiceBuildDockerCmd o esc) esc opts
    ∧ createContainerResult stdout = { containerId := jsTrim stdout, status := "running" } :=
  ⟨createContainerCmd_eq_spec p esc opts, createContainerCmd2_eq_spec o esc opts, rfl⟩

/-- **C2.** For every provider configuration, escape function, container
handle and command: `executeCommand` builds the invocation
`<dockerCmd> exec <container> sh -c <command>` with container and command
escaped, and an inner command exiting with a non-zero code `n` yields a
result whose `exitCode` is that `n` on the non-throwing path (`reject:
false` — no exception raised for a non-zero exit). -/
theorem executeCommand_exec_shape_and_inner_exit
    (p : DockerSandboxProvider) (esc : String → String)
    (containerId command : String) (so se : Option String) (n : Int)
    (hn : n ≠ 0) :
    executeCommandCmd p esc containerId command
      = buildDockerCmd p esc ++ (" exec " ++ (esc containerId ++ (" sh -c " ++ esc command)))
    ∧ (executeCommandResult (.completed so se (some n))).exitCode = n
    ∧ (executeCommandResult (.completed so se (some n))).stdout = jsOrString so ""
    ∧ (executeCommandResult (.completed so se (some n))).stderr = jsOrString se "" := by
  refine ⟨?_, ?_, rfl, rfl⟩
  · simp only [executeCommandCmd, String.append_assoc]
  · simp only [executeCommandResult, jsOrInt]
    have : (n == 0) = false := by
      simpa using hn
    rw [this]
    rfl

/-- Witness for C2 at a concrete input: the default provider, identity
escaping, inner exit code 2. -/
theorem executeCommand_exec_shape_and_inner_exit_witness :
    executeCommandCmd (mkDockerSandboxProvider none none none none none)
        (fun s => s) "c0" "false"
      = buildDockerCmd (mkDockerSandboxProvider none none none none none) (fun s => s)
          ++ (" exec " ++ ("c0" ++ (" sh -c " ++ "false")))
    ∧ (executeCommandResult (.completed (some "") (some "boom") (some 2))).exitCode = 2
    ∧ (executeCommandResult (.completed (some "") (some "boom") (some 2))).stdout
        = jsOrString (some "") ""
    ∧ (executeCommandResult (.completed (some "") (some "boom") (some 2))).stderr
        = jsOrString (some "boom") "" :=
  executeCommand_exec_shape_and_inner_exit
    (mkDockerSandboxProvider none none none none none) (fun s => s)
    "c0" "false" (some "") (some "boom") 2 (by decide)

/-- **C10.** `executeCommand` is total on its error path: a thrown
invocation error is converted into `{stdout := "", stderr := message,
exitCode := 1}`, and a completed process reporting no exit code yields
`exitCode = 0` (JavaScript `exitCode || 0`). -/
theorem executeCommand_total_error_path (m : String) (so se : Option String) :
    executeCommandResult (.threw m) = { stdout := "", stderr := m, exitCode := 1 }
    ∧ (executeCommandResult (.completed so se none)).exitCode = 0 :=
  ⟨rfl, rfl⟩

theorem buildDockerCmd_eq (p : DockerSandboxProvider) (esc : String → String) :
    buildDockerCmd p esc = "docker" ++ hostPart p.host esc ++ tlsPart esc p.tlsConfig := by
  obtain ⟨h, tc⟩ := p
  simp only [buildDockerCmd, hostPart, tlsPart]
  cases tc with
  | none =>
    split_ifs <;> simp only [String.append_assoc, String.append_empty]
  | some t =>
    obtain ⟨ca, c, k⟩ := t
    cases ca <;> cases c <;> cases k <;> dsimp only [optFlagPart] <;> split_ifs <;>
      simp only [String.append_assoc, String.append_empty]

theorem toolDockerCmd_eq (svc : DockerServiceState) (esc : String → String) :
    toolDockerCmd svc esc = "docker" ++ hostPart svc.host esc ++ svcTlsPart esc svc := by
  obtain ⟨h, v, ca, c, k⟩ := svc
  simp only [toolDockerCmd, hostPart, svcTlsPart]
  cases v <;> cases ca <;> cases c <;> cases k <;> dsimp only [optFlagPart] <;> split_ifs <;>
    simp only [String.append_assoc, String.append_empty]

theorem dockerServiceBuildDockerCmd_eq (o : DockerServiceOptions) (esc : String → String) :
    dockerServiceBuildDockerCmd o esc
      = "docker" ++ dsHostPart esc o.host ++ dsTlsPart esc o.tls := by
  obtain ⟨h, tls⟩ := o
  simp only [dockerServiceBuildDockerCmd, dsHostPart, dsTlsPart]
  rcases h with _ | hh <;> rcases tls with _ | ⟨v, ca, c, k⟩ <;>
    (try cases v) <;> (try cases ca) <;> (try cases c) <;> (try cases k) <;>
    dsimp only [optFlagPart] <;> (try split_ifs) <;>
    simp only [String.append_assoc, String.append_empty]

/-- **C3 (counterexample).** The dockerRun tool is one of the generators of
docker command lines; with TLS verification on and all three certificate
paths present, its argv has the TLS flags in *reverse* order
(`--tlskey=`, `--tlscert=`, `--tlscacert=`, `--tls`), because they are
`unshift`ed one after another — so the claimed "in that order" property is
false for this generated command line. -/
theorem dockerRun_tls_flags_reversed :
    dockerRunFinalCommand tlsToolSvc [] none none none "ubuntu:latest" "ls" 60
      = ["timeout", "60s", "docker", "--tlskey=/key.pem", "--tlscert=/cert.pem",
         "--tlscacert=/ca.pem", "--tls", "run", "--rm", "ubuntu:latest", "sh", "-c", "ls"]
    ∧ tlsFlagsOnceInOrder
        (dockerRunFinalCommand tlsToolSvc [] none none none "ubuntu:latest" "ls" 60) = false := by
  constructor <;> decide

/-- **C3 (amended).** Every *string-built* docker command line (the sandbox
provider's `buildDockerCmd`, the tools' inline prefix, and
`DockerService.buildDockerCmd`), for every connection configuration with
TLS verification on and all three paths present, emits exactly
`--tls --tlscacert=<ca> --tlscert=<c> --tlskey=<k>` in that order directly
after the host part, each wrapping the escaped path (a flag is dropped only
for an empty path, per the source's truthiness test); the dockerRun argv
path instead emits them in reverse order and unescaped. -/
theorem tls_flags_once_in_order_string_builders (esc : String → String)
    (h ca c k : String) (ho : Option String) :
    buildDockerCmd ⟨h, some ⟨some ca, some c, some k⟩⟩ esc
      = "docker" ++ hostPart h esc ++ " --tls"
        ++ (if jsStrTruthy ca then " --tlscacert=" ++ esc ca else "")
        ++ (if jsStrTruthy c then " --tlscert=" ++ esc c else "")
        ++ (if jsStrTruthy k then " --tlskey=" ++ esc k else "")
    ∧ toolDockerCmd ⟨h, true, some ca, some c, some k⟩ esc
      = "docker" ++ hostPart h esc ++ " --tls"
        ++ (if jsStrTruthy ca then " --tlscacert=" ++ esc ca else "")
        ++ (if jsStrTruthy c then " --tlscert=" ++ esc c else "")
        ++ (if jsStrTruthy k then " --tlskey=" ++ esc k else "")
    ∧ dockerServiceBuildDockerCmd ⟨ho, some ⟨true, some ca, some c, some k⟩⟩ esc
      = "docker" ++ dsHostPart esc ho ++ " --tls"
        ++ (if jsStrTruthy ca then " --tlscacert=" ++ esc ca else "")
        ++ (if jsStrTruthy c then " --tlscert=" ++ esc c else "")
        ++ (if jsStrTruthy k then " --tlskey=" ++ esc k else "")
    ∧ tlsFlagsOnceInOrder (splitWords (toolDockerCmd tlsToolSvc (fun s => s))) = true
    ∧ dockerRunArgs tlsToolSvc [] none none none "ubuntu:latest" "ls"
      = ["--tlskey=/key.pem", "--tlscert=/cert.pem", "--tlscacert=/ca.pem", "--tls",
         "run", "--rm", "ubuntu:latest", "sh", "-c", "ls"] := by
  refine ⟨?_, ?_, ?_, by decide, by decide⟩
  · rw [buildDockerCmd_eq]
    dsimp only [tlsPart, optFlagPart]
    simp only [String.append_assoc]
  · rw [toolDockerCmd_eq]
    dsimp only [svcTlsPart, optFlagPart]
    rw [if_pos rfl]
    simp only [String.append_assoc]
  · rw [dockerServiceBuildDockerCmd_eq]
    dsimp only [dsTlsPart, optFlagPart]
    rw [if_pos rfl]
    simp only [String.append_assoc]

/-- **C4 (counterexample).** `DockerService.buildDockerCmd` emits `-H` even
when the configured address equals the default local socket: with
`host = "unix:///var/run/docker.sock"` and no TLS options, the generated
command line is `docker -H unix:///var/run/docker.sock`, which contains a
`-H` flag — refuting the claim for this connection configuration. -/
theorem dockerService_emits_H_for_default_socket :
    dockerServiceBuildDockerCmd ⟨some defaultDockerHost, none⟩ (fun s => s)
      = "docker -H unix:///var/run/docker.sock"
    ∧ ((splitWords (dockerServiceBuildDockerCmd ⟨some defaultDockerHost, none⟩
        (fun s => s))).contains "-H") = true := by
  constructor <;> decide

/-- **C4 (amended).** With the address equal to the default local socket and
TLS verification false, the sandbox provider's `buildDockerCmd` and the
tools' inline prefix generate exactly `docker` (no `-H`, no `--tls`) — for
any certificate-path options; `DockerService.buildDockerCmd` generates
`docker` only when no host is configured at all, and still emits `-H` when
the configured host is the default socket. -/
theorem default_local_socket_omits_flags (esc : String → String) (ca c k : Option String) :
    buildDockerCmd (mkDockerSandboxProvider none (some false) ca c k) esc = "docker"
    ∧ buildDockerCmd (mkDockerSandboxProvider (some defaultDockerHost) (some false) ca c k) esc
        = "docker"
    ∧ toolDockerCmd (mkDockerService none (some false) ca c k) esc = "docker"
    ∧ toolDockerCmd (mkDockerService (some defaultDockerHost) (some false) ca c k) esc = "docker"
    ∧ dockerServiceBuildDockerCmd ⟨none, none⟩ esc = "docker"
    ∧ dockerServiceBuildDockerCmd ⟨some defaultDockerHost, none⟩ esc
        = "docker" ++ " -H " ++ esc defaultDockerHost := by
  refine ⟨rfl, rfl, rfl, rfl, rfl, rfl⟩

/-- **C6 (counterexample).** The sandbox `createContainer` passes its
caller-supplied timeout to the process invoker unclamped: a timeout of 0
is handed down as 0 milliseconds, not raised to the 5-second minimum
bound. -/
theorem createContainer_timeout_zero_unclamped :
    createContainerTimeoutMs { timeout := some 0 } = 0
    ∧ createContainerTimeoutMs { timeout := some 0 } < 5 * 1000 := by
  constructor <;> decide

/-- **C6 (amended).** The CLI tools clamp the caller-supplied timeout into
the operation's bounded range — builds into [5, 1800], list operations
into [5, 120], with 0/negative raised to 5 and large values lowered to the
ceiling — but the sandbox provider's `createContainer` passes the
caller-supplied timeout through to the process invoker unclamped. -/
theorem tool_timeouts_clamped_sandbox_unclamped :
    (∀ t : Int, 5 ≤ buildImageTimeout t ∧ buildImageTimeout t ≤ 1800)
    ∧ (∀ t : Int, 5 ≤ listImagesTimeout t ∧ listImagesTimeout t ≤ 120)
    ∧ buildImageTimeout 0 = 5 ∧ buildImageTimeout (-30) = 5 ∧ buildImageTimeout 99999 = 1800
    ∧ listImagesTimeout 0 = 5 ∧ listImagesTimeout (-1) = 5 ∧ listImagesTimeout 999 = 120
    ∧ (∀ t : Int, createContainerTimeoutMs { timeout := some t } = t * 1000) := by
  refine ⟨?_, ?_, by decide, by decide, by decide, by decide, by decide, by decide, fun t => rfl⟩
  · intro t
    exact ⟨le_max_left 5 (min t 1800), max_le (by norm_num) (min_le_right t 1800)⟩
  · intro t
    exact ⟨le_max_left 5 (min t 120), max_le (by norm_num) (min_le_right t 120)⟩

/-- **C8.** For every service configuration, escape function, flag values
and timeout: calling removeContainer or stopContainer with `containers`
absent, with an empty string, or with an empty identifier list fails with
the descriptive validation error (naming the tool and the missing
parameter) before any command is built or subprocess spawned — the model
returns `.error` without ever reaching the command-construction stage. -/
theorem required_containers_validated_before_spawn
    (svc : DockerServiceState) (o : DockerServiceOptions) (esc : String → String)
    (force volumes link : Bool) (time t1 t2 : Int) :
    removeContainerExecute svc esc .absent force volumes link t1
        = .error "[docker/removeContainer] containers is required"
    ∧ removeContainerExecute svc esc (.single "") force volumes link t1
        = .error "[docker/removeContainer] containers is required"
    ∧ removeContainerExecute svc esc (.multi []) force volumes link t1
        = .error "[docker/removeContainer] at least one container must be specified"
    ∧ stopContainerExecute o esc .absent time t2
        = .error "[docker_stopContainer] containers is required"
    ∧ stopContainerExecute o esc (.single "") time t2
        = .error "[docker_stopContainer] containers is required"
    ∧ stopContainerExecute o esc (.multi []) time t2
        = .error "[docker_stopContainer] at least one container must be specified" :=
  ⟨rfl, rfl, rfl, rfl, rfl, rfl⟩

theorem parseLines_ok_full_length {α : Type} (parse : String → Except String α) :
    ∀ (ls : List String) (js : List α), parseLines parse ls = .ok js → js.length = ls.length := by
  intro ls
  induction ls with
  | nil =>
    intro js h
    simp only [parseLines] at h
    injection h with h1
    subst h1
    rfl
  | cons l ls ih =>
    intro js h
    simp only [parseLines] at h
    cases hp : parse l with
    | error e =>
      simp only [hp] at h
      exact Except.noConfusion h
    | ok j =>
      simp only [hp] at h
      cases hr : parseLines parse ls with
      | error e =>
        simp only [hr] at h
        exact Except.noConfusion h
      | ok js0 =>
        simp only [hr] at h
        injection h with h1
        subst h1
        simp [ih js0 hr]

/-- **C5 (counterexample).** With stdout `"{}\nnope"` — one valid JSON line
followed by one invalid line — the listImages and listContainers models
keep `ok = true` and substitute the raw trimmed stdout for the parsed
list: the operation does *not* fail as a whole, refuting the claim at this
concrete input. -/
theorem listImages_bad_json_line_not_failing :
    (listImagesSuccessResult parse0 "json" false "{}\nnope").ok = true
    ∧ (listImagesSuccessResult parse0 "json" false "{}\nnope").images = .raw "{}\nnope"
    ∧ (listContainersSuccessResult parse0 "json" false "{}\nnope").ok = true
    ∧ (listContainersSuccessResult parse0 "json" false "{}\nnope").images = .raw "{}\nnope"
    ∧ parseLines parse0 (jsonLines "{}\nnope") = .error "bad json" :=
  ⟨rfl, rfl, rfl, rfl, rfl⟩

/-- **C5 (amended).** When any nonblank stdout line fails to parse, the
JSON-format list operations log a decoding error that names the operation
and return the raw trimmed stdout in place of the parsed list, with the
overall result still `ok = true`; they never return a partial list — a
parsed result always has exactly one object per nonblank line. -/
theorem json_parse_failure_substitutes_raw {α : Type}
    (parse : String → Except String α) (stdout e : String)
    (hfail : parseLines parse (jsonLines stdout) = .error e) :
    listImagesSuccessResult parse "json" false stdout
      = { ok := true, images := .raw (jsTrim stdout)
          errorLog := some ("[docker/listImages] Error parsing JSON output: " ++ e) }
    ∧ listContainersSuccessResult parse "json" false stdout
      = { ok := true, images := .raw (jsTrim stdout)
          errorLog := some ("[listContainers] Error parsing JSON output: " ++ e) }
    ∧ (∀ (s : String) (js : List α), parseLines parse (jsonLines s) = .ok js →
        js.length = (jsonLines s).length) := by
  refine ⟨?_, ?_, fun s js h => parseLines_ok_full_length parse (jsonLines s) js h⟩
  · simp only [listImagesSuccessResult]
    rw [if_pos (by decide)]
    simp only [hfail]
  · simp only [listContainersSuccessResult]
    rw [if_pos (by decide)]
    simp only [hfail]

/-- Witness for C5 (amended) at the concrete input `"{}\nnope"` with the
concrete parser `parse0`. -/
theorem json_parse_failure_substitutes_raw_witness :
    listImagesSuccessResult parse0 "json" false "{}\nnope"
      = { ok := true, images := .raw (jsTrim "{}\nnope")
          errorLog := some ("[docker/listImages] Error parsing JSON output: " ++ "bad json") }
    ∧ ([(), ()] : List Unit).length = (jsonLines "{}\n{}").length :=
  ⟨(json_parse_failure_substitutes_raw parse0 "{}\nnope" "bad json" rfl).1,
   (json_parse_failure_substitutes_raw parse0 "{}\nnope" "bad json" rfl).2.2 "{}\n{}" [(), ()] rfl⟩

/-- **C9.** The registry-authentication log line never interpolates the
password: two invocations differing only in the password produce the
identical logged text (for any stdin mode), while the actually-executed
command, when the password is not passed via stdin, does contain the
escaped password after a `-p` flag. -/
theorem auth_password_hidden_from_log
    (svc : DockerServiceState) (esc : String → String)
    (server username p1 p2 : String) (email : Option String)
    (stdin : Bool) (t : Int) :
    (authInvocation svc esc server username p1 email stdin t).1
      = (authInvocation svc esc server username p2 email stdin t).1
    ∧ ∃ pre suf, (authInvocation svc esc server username p1 email false t).2
        = pre ++ (" -p " ++ esc p1) ++ suf := by
  constructor
  · rfl
  · simp only [authInvocation]
    rw [if_pos (by decide)]
    cases email with
    | none =>
      refine ⟨"timeout " ++ toString (listImagesTimeout t) ++ "s " ++ toolDockerCmd svc esc
        ++ " login" ++ " " ++ esc server ++ " -u " ++ esc username, "", ?_⟩
      simp only [String.append_assoc, String.append_empty]
    | some e =>
      by_cases he : jsStrTruthy e = true
      · refine ⟨"timeout " ++ toString (listImagesTimeout t) ++ "s " ++ toolDockerCmd svc esc
          ++ " login" ++ " " ++ esc server ++ " -u " ++ esc username,
          " --email " ++ esc e, ?_⟩
        simp [he, String.append_assoc, String.append_empty]
      · refine ⟨"timeout " ++ toString (listImagesTimeout t) ++ "s " ++ toolDockerCmd svc esc
          ++ " login" ++ " " ++ esc server ++ " -u " ++ esc username, "", ?_⟩
        simp [he, String.append_assoc, String.append_empty]

theorem exists_docker_suffix (p : DockerSandboxProvider) (esc : String → String) :
    ∃ r, buildDockerCmd p esc = "docker" ++ r := by
  rw [buildDockerCmd_eq]
  exact ⟨hostPart p.host esc ++ tlsPart esc p.tlsConfig, by
    simp only [String.append_assoc]⟩

theorem strStartsWith_timeout_docker_append (x : String) :
    strStartsWith "timeout " ("docker" ++ x) = false := by
  cases x with
  | mk d => simp [strStartsWith, List.isPrefixOf]

theorem sandbox_cmd_no_timeout (p : DockerSandboxProvider) (esc : String → String)
    (tail : String) :
    strStartsWith "timeout " (buildDockerCmd p esc ++ tail) = false := by
  obtain ⟨r, hr⟩ := exists_docker_suffix p esc
  rw [hr, String.append_assoc]
  exact strStartsWith_timeout_docker_append _

/-- **C7 (counterexample).** The sandbox provider's `executeCommand` builds
its command line with no external `timeout <seconds>s` prefix: for the
default provider the command is exactly `docker exec c0 sh -c ls`, which
does not start with `timeout ` — refuting the claim that *every*
operation's command line carries the wrapper. -/
theorem executeCommand_lacks_timeout_wrapper :
    executeCommandCmd (mkDockerSandboxProvider none none none none none)
        (fun s => s) "c0" "ls"
      = "docker exec c0 sh -c ls"
    ∧ strStartsWith "timeout "
        (executeCommandCmd (mkDockerSandboxProvider none none none none none)
          (fun s => s) "c0" "ls") = false := by
  constructor <;> decide

theorem foldl_pairFlags (flag : String) (esc : String → String) :
    ∀ (l : List (String × String)) (init : String),
      l.foldl (fun c kv => c ++ flag ++ esc (kv.1 ++ "=" ++ kv.2)) init
        = init ++ pairFlags flag esc l := by
  intro l
  induction l with
  | nil => intro init; simp [pairFlags]
  | cons kv rest ih =>
      intro init
      rw [List.foldl_cons, ih, pairFlags]
      simp only [String.append_assoc]

theorem exists_app_right {base s : String} (h : ∃ r, s = base ++ r) (a : String) :
    ∃ r, s ++ a = base ++ r := by
  obtain ⟨r, hr⟩ := h
  exact ⟨r ++ a, by rw [hr, String.append_assoc]⟩

theorem appendIf_suffix {base cmd : String} {b : Bool} {s : String}
    (h : ∃ r, cmd = base ++ r) :
    ∃ r, appendIf b s cmd = base ++ r := by
  unfold appendIf
  repeat' split
  all_goals first | exact h | exact exists_app_right h _

theorem appendOpt_suffix {base cmd : String} {v : Option String} {f : String → String}
    (h : ∃ r, cmd = base ++ r) :
    ∃ r, appendOpt v f cmd = base ++ r := by
  unfold appendOpt
  repeat' split
  all_goals first | exact h | exact exists_app_right h _

theorem appendOptInt_suffix {base cmd : String} {v : Option Int} {f : Int → String}
    (h : ∃ r, cmd = base ++ r) :
    ∃ r, appendOptInt v f cmd = base ++ r := by
  unfold appendOptInt
  repeat' split
  all_goals first | exact h | exact exists_app_right h _

theorem foldl_pair_suffix {base init flag : String} {esc : String → String}
    {l : List (String × String)} (h : ∃ r, init = base ++ r) :
    ∃ r, l.foldl (fun c kv => c ++ flag ++ esc (kv.1 ++ "=" ++ kv.2)) init = base ++ r := by
  rw [foldl_pairFlags]
  exact exists_app_right h (pairFlags flag esc l)

theorem exists_ds_docker_suffix (o : DockerServiceOptions) (esc : String → String) :
    ∃ r, dockerServiceBuildDockerCmd o esc = "docker" ++ r := by
  rw [dockerServiceBuildDockerCmd_eq]
  exact ⟨dsHostPart esc o.host ++ dsTlsPart esc o.tls, by
    simp only [String.append_assoc]⟩

theorem ds_cmd_no_timeout (o : DockerServiceOptions) (esc : String → String)
    (tail : String) :
    strStartsWith "timeout " (dockerServiceBuildDockerCmd o esc ++ tail) = false := by
  obtain ⟨r, hr⟩ := exists_ds_docker_suffix o esc
  rw [hr, String.append_assoc]
  exact strStartsWith_timeout_docker_append _

set_option maxHeartbeats 4000000 in
/-- **C7 (amended).** Every CLI tool operation wraps its command line with
an external `timeout <clamped>s` prefix — shown for every configuration
and argument combination of listImages, listContainers, buildImage,
createNetwork, getContainerLogs, pruneImages, pushImage, removeImage,
startContainer, tagImage, the three dockerStack actions, removeContainer,
stopContainer, authenticateRegistry, and dockerRun (argv head `timeout`) —
but none of the sandbox provider's five operations (createContainer in
both variants, executeCommand, stopContainer, getLogs, removeContainer)
do: their command lines all start with `docker`, never with `timeout `. -/
theorem tools_timeout_wrapped_sandbox_not :
    (∀ (svc : DockerServiceState) (esc : String → String)
        (all quiet digests : Bool) (filter : Option String) (format : String) (t : Int),
      ∃ rest, listImagesCmd svc esc all quiet digests filter format t
        = "timeout " ++ toString (listImagesTimeout t) ++ "s " ++ rest)
    ∧ (∀ (svc : DockerServiceState) (esc : String → String) (all quiet : Bool)
        (limit : Option Int) (filter : Option String) (size : Bool)
        (format : String) (t : Int),
      ∃ rest, listContainersCmd svc esc all quiet limit filter size format t
        = "timeout " ++ toString (listImagesTimeout t) ++ "s " ++ rest)
    ∧ (∀ (svc : DockerServiceState) (esc : String → String) (tag : String)
        (dockerfile : Option String) (buildArgs : List (String × String))
        (noCache pull : Bool) (context : String) (t : Int),
      ∃ rest, buildImageCmd svc esc tag dockerfile buildArgs noCache pull context t
        = "timeout " ++ toString (buildImageTimeout t) ++ "s " ++ rest)
    ∧ (∀ (svc : DockerServiceState) (esc : String → String) (nm driver : String)
        (options : List (String × String)) (internal : Bool)
        (subnet gateway ipRange : Option String) (t : Int),
      ∃ rest, createNetworkCmd svc esc nm driver options internal subnet gateway ipRange t
        = "timeout " ++ toString (listImagesTimeout t) ++ "s " ++ rest)
    ∧ (∀ (svc : DockerServiceState) (esc : String → String) (follow timestamps : Bool)
        (since untl : Option String) (tail : Int) (details : Bool)
        (containerName : String) (t : Int),
      ∃ rest, getContainerLogsCmd svc esc follow timestamps since untl tail details containerName t
        = "timeout " ++ toString (getContainerLogsTimeout t) ++ "s " ++ rest)
    ∧ (∀ (svc : DockerServiceState) (esc : String → String) (all : Bool)
        (filter : Option String) (t : Int),
      ∃ rest, pruneImagesCmd svc esc all filter t
        = "timeout " ++ toString (pruneImagesTimeout t) ++ "s " ++ rest)
    ∧ (∀ (svc : DockerServiceState) (esc : String → String) (allTags : Bool)
        (tag : String) (t : Int),
      ∃ rest, pushImageCmd svc esc allTags tag t
        = "timeout " ++ toString (pushImageTimeout t) ++ "s " ++ rest)
    ∧ (∀ (svc : DockerServiceState) (esc : String → String) (force noPrune : Bool)
        (images : List String) (t : Int),
      ∃ rest, removeImageCmd svc esc force noPrune images t
        = "timeout " ++ toString (listImagesTimeout t) ++ "s " ++ rest)
    ∧ (∀ (svc : DockerServiceState) (esc : String → String) (attach interactive : Bool)
        (containers : List String) (t : Int),
      ∃ rest, startContainerCmd svc esc attach interactive containers t
        = "timeout " ++ toString (listImagesTimeout t) ++ "s " ++ rest)
    ∧ (∀ (svc : DockerServiceState) (esc : String → String) (src tgt : String) (t : Int),
      ∃ rest, tagImageCmd svc esc src tgt t
        = "timeout " ++ toString (listImagesTimeout t) ++ "s " ++ rest)
    ∧ (∀ (svc : DockerServiceState) (esc : String → String) (cf sn : String) (t : Int),
      (∃ rest, dockerStackDeployCmd svc esc cf sn t
        = "timeout " ++ toString (dockerStackTimeout t) ++ "s " ++ rest)
      ∧ (∃ rest, dockerStackRemoveCmd svc esc sn t
        = "timeout " ++ toString (dockerStackTimeout t) ++ "s " ++ rest)
      ∧ (∃ rest, dockerStackPsCmd svc esc sn t
        = "timeout " ++ toString (dockerStackTimeout t) ++ "s " ++ rest))
    ∧ (∀ (svc : DockerServiceState) (esc : String → String) (cid : String)
        (cs : List String) (force volumes link : Bool) (t : Int),
      ∃ rest, removeContainerExecute svc esc (.multi (cid :: cs)) force volumes link t
        = .ok ("timeout " ++ toString (listImagesTimeout t) ++ "s " ++ rest))
    ∧ (∀ (o : DockerServiceOptions) (esc : String → String) (cid : String)
        (cs : List String) (time t : Int),
      ∃ rest, stopContainerExecute o esc (.multi (cid :: cs)) time t
        = .ok ("timeout " ++ toString (listImagesTimeout t) ++ "s " ++ rest))
    ∧ (∀ (svc : DockerServiceState) (esc : String → String)
        (server username password : String) (email : Option String)
        (stdin : Bool) (t : Int),
      ∃ rest, (authInvocation svc esc server username password email stdin t).2
        = "timeout " ++ toString (listImagesTimeout t) ++ "s " ++ rest)
    ∧ (∀ (svc : DockerServiceState) (env : List (String × String))
        (wd mb ms : Option String) (img c : String) (t : Int),
      (dockerRunFinalCommand svc env wd mb ms img c t).head? = some "timeout"
      ∧ (dockerRunFinalCommand svc env wd mb ms img c t).get? 1
          = some (toString (dockerRunTimeout t) ++ "s"))
    ∧ (∀ (p : DockerSandboxProvider) (o : DockerServiceOptions)
        (esc : String → String) (opts : SandboxOptions),
      strStartsWith "timeout " (createContainerCmd p esc opts) = false
      ∧ strStartsWith "timeout " (createContainerCmd2 o esc opts) = false)
    ∧ (∀ (p : DockerSandboxProvider) (esc : String → String) (cid c : String),
        strStartsWith "timeout " (executeCommandCmd p esc cid c) = false)
    ∧ (∀ (p : DockerSandboxProvider) (esc : String → String) (cid : String),
        strStartsWith "timeout " (providerStopCmd p esc cid) = false
        ∧ strStartsWith "timeout " (providerGetLogsCmd p esc cid) = false
        ∧ strStartsWith "timeout " (providerRemoveCmd p esc cid) = false) := by
  refine ⟨?_, ?_, ?_, ?_, ?_, ?_, ?_, ?_, ?_, ?_, ?_, ?_, ?_, ?_, ?_, ?_, ?_, ?_⟩
  · intro svc esc all quiet digests filter format t
    simp only [listImagesCmd]
    repeat' split
    all_goals simp only [String.append_assoc]
    all_goals exact ⟨_, rfl⟩
  · intro svc esc all quiet limit filter size format t
    simp only [listContainersCmd]
    repeat' split
    all_goals
      repeat
        first
        | exact ⟨_, rfl⟩
        | apply appendIf_suffix
        | apply appendOpt_suffix
        | apply appendOptInt_suffix
        | apply exists_app_right
  · intro svc esc tag dockerfile buildArgs noCache pull context t
    simp only [buildImageCmd]
    repeat
      first
      | exact ⟨_, rfl⟩
      | apply appendIf_suffix
      | apply appendOpt_suffix
      | apply foldl_pair_suffix
      | apply exists_app_right
  · intro svc esc nm driver options internal subnet gateway ipRange t
    simp only [createNetworkCmd]
    repeat
      first
      | exact ⟨_, rfl⟩
      | apply appendIf_suffix
      | apply appendOpt_suffix
      | apply foldl_pair_suffix
      | apply exists_app_right
  · intro svc esc follow timestamps since untl tail details containerName t
    simp only [getContainerLogsCmd]
    repeat
      first
      | exact ⟨_, rfl⟩
      | apply appendIf_suffix
      | apply appendOpt_suffix
      | apply exists_app_right
  · intro svc esc all filter t
    simp only [pruneImagesCmd]
    repeat
      first
      | exact ⟨_, rfl⟩
      | apply appendIf_suffix
      | apply appendOpt_suffix
      | apply exists_app_right
  · intro svc esc allTags tag t
    simp only [pushImageCmd]
    repeat
      first
      | exact ⟨_, rfl⟩
      | apply appendIf_suffix
      | apply exists_app_right
  · intro svc esc force noPrune images t
    simp only [removeImageCmd]
    repeat
      first
      | exact ⟨_, rfl⟩
      | apply appendIf_suffix
      | apply exists_app_right
  · intro svc esc attach interactive containers t
    simp only [startContainerCmd]
    repeat
      first
      | exact ⟨_, rfl⟩
      | apply appendIf_suffix
      | apply exists_app_right
  · intro svc esc src tgt t
    simp only [tagImageCmd, String.append_assoc]
    exact ⟨_, rfl⟩
  · intro svc esc cf sn t
    refine ⟨?_, ?_, ?_⟩ <;>
    · simp only [dockerStackDeployCmd, dockerStackRemoveCmd, dockerStackPsCmd,
        String.append_assoc]
      exact ⟨_, rfl⟩
  · intro svc esc cid cs force volumes link t
    simp only [removeContainerExecute, jsContainersFalsy, toContainerList]
    repeat' split
    all_goals simp_all
    all_goals simp only [String.append_assoc]
    all_goals exact ⟨_, rfl⟩
  · intro o esc cid cs time t
    simp only [stopContainerExecute, jsContainersFalsy, toContainerList]
    repeat' split
    all_goals simp_all
    all_goals simp only [String.append_assoc]
    all_goals exact ⟨_, rfl⟩
  · intro svc esc server username password email stdin t
    simp only [authInvocation]
    repeat' split
    all_goals simp only [String.append_assoc]
    all_goals exact ⟨_, rfl⟩
  · intro svc env wd mb ms img c t
    exact ⟨rfl, rfl⟩
  · intro p o esc opts
    constructor
    · rw [createContainerCmd_eq_spec]
      simp only [specRunInvocation, String.append_assoc]
      exact sandbox_cmd_no_timeout p esc _
    · rw [createContainerCmd2_eq_spec]
      simp only [specRunInvocation, String.append_assoc]
      exact ds_cmd_no_timeout o esc _
  · intro p esc cid c
    simp only [executeCommandCmd, String.append_assoc]
    exact sandbox_cmd_no_timeout p esc _
  · intro p esc cid
    refine ⟨?_, ?_, ?_⟩ <;>
    · simp only [providerStopCmd, providerGetLogsCmd, providerRemoveCmd, String.append_assoc]
      exact sandbox_cmd_no_timeout p esc _
